import Mathlib

/-!
Verification of the array/heatmap utilities of `mytoolbox_cv_ml`
(`xinshuo_math/python/math_conversion.py` and
`xinshuo_images/python/image_operator.py`) against their specification.

Shallow embedding conventions:
* numpy arrays are value-level structures holding a shape together with a
  total index function into `ℚ` (floating-point values are modelled as exact
  rationals; out-of-bounds positions carry irrelevant junk values);
* Python exceptions become `Except PyError`;
* `np.exp` is floating point and transcendental, so it is threaded through as
  an abstract pointwise map `expf : ℚ → ℚ`; every theorem below holds for all
  such maps, because the properties at stake are decided by the clipping,
  masking and shape logic of the source, not by the value of the exponential;
* external collaborators that are not part of the two source files
  (`safe_npdata`, `safe_2dptsarray_occlusion`, `isimsize` from
  `xinshuo_miscellaneous`/`private`, and `cv2.resize`) are modelled from the
  spec where the source relies on them, as flagged in their doc comments.
-/

/-- Error kinds raised by the embedded code.  `invalidArgument` stands for a
failed validation `assert` (spec §7 calls these InvalidArgument);
`valueError` is numpy's `ValueError`; `nameError` / `unboundLocal` are
Python's unbound-name errors; `notImplemented` is the spec §7 error kind for
the unfinished Gaussian-kernel generator (the source itself never produces
it, see `gaussian_filter`). -/
inductive PyError where
  | invalidArgument
  | valueError
  | nameError
  | unboundLocal
  | notImplemented
deriving DecidableEq, Repr

/-- A rank-3 numpy array: a shape `(d0, d1, d2)` plus a total index
function.  Positions outside the shape hold irrelevant values; all the
functions below produce data functions that are defined everywhere. -/
structure NpArr3 where
  shape : ℕ × ℕ × ℕ
  data : ℕ → ℕ → ℕ → ℚ

/-- A numpy array of arbitrary rank (used by `nparray_resize` and
`generate_gaussian_heatmap`, whose outputs are rank 2 or 3): the shape is a
list of dimensions and `data` indexes the first three axes. -/
structure NpArrN where
  shape : List ℕ
  data : ℕ → ℕ → ℕ → ℚ

/-- Modelled from the spec: `safe_npdata` (the repository's `private`
module, not under `src/`) is spec §6's `safeNumericCopy`: it returns a copy
of a numeric array.  On array values this is the identity. -/
def safe_npdata (input_nparray : NpArrN) : NpArrN := input_nparray

/-- `nparray_hwc2chw` (math_conversion.py lines 11-24): `np.transpose`
with axes `(2, 0, 1)`, so `result[c, h, w] = input[h, w, c]`.  The
`debug` assert only checks `ndim == 3`, which holds for every `NpArr3`, and
`safe_npdata` is a value-level identity, so neither appears here. -/
def nparray_hwc2chw (input_nparray : NpArr3) : NpArr3 :=
  ⟨(input_nparray.shape.2.2, input_nparray.shape.1, input_nparray.shape.2.1),
   fun c h w => input_nparray.data h w c⟩

/-- `nparray_chw2hwc` (math_conversion.py lines 26-40): a defensive copy
followed by `np.transpose` with axes `(1, 2, 0)`, so
`result[h, w, c] = input[c, h, w]`.  The `debug` rank-3 assert always holds
for an `NpArr3`. -/
def nparray_chw2hwc (input_nparray : NpArr3) : NpArr3 :=
  ⟨(input_nparray.shape.2.1, input_nparray.shape.2.2, input_nparray.shape.1),
   fun h w c => input_nparray.data c h w⟩

/-- Modelled from the spec: `safe_2dptsarray_occlusion` (the repository's
`private` module, not under `src/`) normalizes the accepted point-input
shapes (list, list of lists, `(3,)` or `(3, N)` array) into the canonical
3×N layout of spec §3: row 0 = x, row 1 = y, row 2 = occlusion state, with
N ≥ 0.  The embedding takes that canonical layout directly: `data r j` is
the entry of row `r` at point index `j < N`. -/
structure PtsArray where
  N : ℕ
  data : ℕ → ℕ → ℚ

/-- Spec §3 invariant on a normalized point set: every occlusion state
(row 2) is -1, 0 or 1. -/
def pts_states_ok (pts_array : PtsArray) : Prop :=
  ∀ j < pts_array.N,
    pts_array.data 2 j = -1 ∨ pts_array.data 2 j = 0 ∨ pts_array.data 2 j = 1

instance (pts_array : PtsArray) : Decidable (pts_states_ok pts_array) :=
  Nat.decidableBallLT _ _

/-- `np.amax` along an axis of length `l.length`: `none` models the
`ValueError` numpy raises on a zero-size reduction axis (maximum has no
identity); otherwise the maximum of the list. -/
def list_amax : List ℚ → Option ℚ
  | [] => none
  | a :: t => some (t.foldl max a)

/-- The raw Gaussian response (math_conversion.py lines 67-70):
`np.fromfunction` builds, at pixel `(y, x)` and channel `pts_id`, the
quantity `((x - pts[0, pts_id])² + (y - pts[1, pts_id])²) / -2.0 / std / std`,
and `np.exp` (the abstract `expf`) is applied pointwise. -/
def heatmap_raw (expf : ℚ → ℚ) (pts_array : PtsArray) (std : ℚ)
    (y x pts_id : ℕ) : ℚ :=
  expf ((((x : ℚ) - pts_array.data 0 pts_id) ^ 2
        + ((y : ℚ) - pts_array.data 1 pts_id) ^ 2) / (-2) / std / std)

/-- Lines 80-81 of math_conversion.py ("ceiling and flooring"): values below
`threshold = 0.01` are set to 0, then values above 1 are set to 1. -/
def heatmap_clipped (expf : ℚ → ℚ) (pts_array : PtsArray) (std : ℚ)
    (y x pts_id : ℕ) : ℚ :=
  let v := heatmap_raw expf pts_array std y x pts_id
  if v < 1 / 100 then 0 else if v > 1 then 1 else v

/-- Line 72 of math_conversion.py: a point is valid iff its occlusion state
(row 2) is 0 or 1. -/
def pt_valid (pts_array : PtsArray) (j : ℕ) : Bool :=
  pts_array.data 2 j == 0 || pts_array.data 2 j == 1

/-- Line 73 of math_conversion.py: a point is visible iff its occlusion
state is 1. -/
def pt_visible (pts_array : PtsArray) (j : ℕ) : Bool :=
  pts_array.data 2 j == 1

/-- Lines 74-75 of math_conversion.py: `mask_valid` starts as
`np.ones((1, 1, num_pts + 1))` and its first `num_pts` slots are overwritten
with the `valid` booleans, so the background slot stays 1. -/
def mask_valid_arr (pts_array : PtsArray) (j : ℕ) : ℚ :=
  if j < pts_array.N then (if pt_valid pts_array j then 1 else 0) else 1

/-- Lines 76-77 of math_conversion.py: same construction with the `visible`
booleans. -/
def mask_visible_arr (pts_array : PtsArray) (j : ℕ) : ℚ :=
  if j < pts_array.N then (if pt_visible pts_array j then 1 else 0) else 1

/-- Line 82 of math_conversion.py: the clipped heatmap is multiplied
channel-wise by `mask_valid[:, :, :num_pts]`. -/
def masked_heatmap_chan (expf : ℚ → ℚ) (pts_array : PtsArray) (std : ℚ)
    (y x pts_id : ℕ) : ℚ :=
  heatmap_clipped expf pts_array std y x pts_id * mask_valid_arr pts_array pts_id

/-- Lines 84-85 of math_conversion.py: `1 - np.amax(masked_heatmap, axis=2)`
followed by clipping the result at 0.  The `getD 0` is never exercised: the
caller only evaluates this once `num_pts ≠ 0` (otherwise `np.amax` has
already raised). -/
def background_label (expf : ℚ → ℚ) (pts_array : PtsArray) (std : ℚ)
    (y x : ℕ) : ℚ :=
  let m := (list_amax ((List.range pts_array.N).map
    (fun j => masked_heatmap_chan expf pts_array std y x j))).getD 0
  if 1 - m < 0 then 0 else 1 - m

/-- Line 86 of math_conversion.py: the background channel is concatenated
after the `num_pts` point channels, giving shape
`(height, width, num_pts + 1)`. -/
def masked_heatmap (expf : ℚ → ℚ) (pts_array : PtsArray) (std : ℚ)
    (height width : ℕ) : NpArrN :=
  ⟨[height, width, pts_array.N + 1],
   fun y x j =>
     if j < pts_array.N then masked_heatmap_chan expf pts_array std y x j
     else if j = pts_array.N then background_label expf pts_array std y x
     else 0⟩

/-- `generate_gaussian_heatmap` (math_conversion.py lines 42-88).  The
`debug` asserts (`isscalar(std)`, `isimsize(image_size)`) hold for the
scalar/size types used here.  When `num_pts = 0`, line 84's
`np.amax(masked_heatmap, axis=2)` reduces over a zero-size axis and numpy
raises `ValueError` (maximum has no identity); otherwise the function
returns the heatmap and the two `(1, 1, num_pts + 1)` masks. -/
def generate_gaussian_heatmap (expf : ℚ → ℚ) (pts_array : PtsArray)
    (image_size : ℕ × ℕ) (std : ℚ) : Except PyError (NpArrN × NpArrN × NpArrN) :=
  let height := image_size.1
  let width := image_size.2
  let num_pts := pts_array.N
  if num_pts = 0 then .error .valueError
  else
    .ok (masked_heatmap expf pts_array std height width,
         ⟨[1, 1, num_pts + 1], fun _ _ j => mask_valid_arr pts_array j⟩,
         ⟨[1, 1, num_pts + 1], fun _ _ j => mask_visible_arr pts_array j⟩)

/-- The maximum over the first `n` channels of an array at pixel `(y, x)`
(the quantity C3 compares the background channel against). -/
def channel_max (a : NpArrN) (y x n : ℕ) : ℚ :=
  (list_amax ((List.range n).map (fun j => a.data y x j))).getD 0

/-- Python 3 `round` on an exact value: round half to even.  For
`q = n / d` (with `d > 0`), `f = n.fdiv d` is the floor of `q` and
`r2 = 2·d·(q - f) ∈ [0, 2d)` encodes the fractional part: `r2 < d` means
round down, `d < r2` round up, and a tie goes to the even integer.  The
source wraps the result in `int(...)`, the identity on an integer. -/
def pyRound (q : ℚ) : ℤ :=
  let n := q.num
  let d : ℤ := (q.den : ℤ)
  let f : ℤ := Int.fdiv n d
  let r2 : ℤ := 2 * (n - f * d)
  if r2 < d then f
  else if d < r2 then f + 1
  else if f % 2 = 0 then f else f + 1

/-- The rational 7/2 = 3.5, as an explicit normalized fraction so that
kernel reduction can evaluate it (used to exercise rounding). -/
def sevenHalves : ℚ := ⟨7, 2, by decide, by decide⟩

/-- Modelled from the spec: `isimsize` (from `xinshuo_miscellaneous`, not
under `src/`) is spec §6's `isImageSize(v) -> bool`; spec §3 makes an image
size a pair of positive (height, width) values. -/
def isimsize (v : ℚ × ℚ) : Bool :=
  decide (0 < v.1) && decide (0 < v.2)

/-- Modelled from the spec: `cv2.resize` is an external collaborator.  Per
spec §4.3 it produces "a new array sized (targetHeight, targetWidth[,
channels])" for rank-2 or rank-3 input; its interpolated pixel values are
outside the spec and are supplied by the abstract `resampled` oracle.
Non-positive target sizes and other ranks raise (an argument error). -/
def cv2_resize (resampled : ℕ → ℕ → ℕ → ℚ) (a : NpArrN)
    (target_width target_height : ℤ) : Except PyError NpArrN :=
  if target_width ≤ 0 ∨ target_height ≤ 0 then .error .invalidArgument
  else
    match a.shape with
    | [_, _] => .ok ⟨[target_height.toNat, target_width.toNat], resampled⟩
    | [_, _, c] => .ok ⟨[target_height.toNat, target_width.toNat, c], resampled⟩
    | _ => .error .invalidArgument

/-- `nparray_resize` (math_conversion.py lines 91-129).  The `debug` block
first asserts `interp in ['bicubic', 'bilinear']`, then the mutual
exclusion of `resize_factor` and `target_size`; the `target_size` branch is
tried first (`if target_size is not None`), the factor branch reads
`height, width = np_array.shape[:2]` (raising `ValueError` below rank 2),
and `assert False` fires when both are `None`.  `warning` only gates
diagnostic logging (spec §7) and is omitted; `resampled` abstracts the
interpolation kernel of the external `cv2.resize`. -/
def nparray_resize (resampled : ℕ → ℕ → ℕ → ℚ) (input_nparray : NpArrN)
    (resize_factor : Option ℚ) (target_size : Option (ℚ × ℚ))
    (interp : String) (debug : Bool) : Except PyError NpArrN :=
  let np_array := safe_npdata input_nparray
  if debug ∧ ¬(interp = "bicubic" ∨ interp = "bilinear") then
    .error .invalidArgument
  else if debug ∧ ¬((resize_factor.isSome ∧ target_size = none)
      ∨ (resize_factor = none ∧ target_size.isSome)) then
    .error .invalidArgument
  else
    let sizes : Except PyError (ℤ × ℤ) :=
      match target_size, resize_factor with
      | some ts, _ =>
        if debug ∧ ¬ isimsize ts then .error .invalidArgument
        else .ok (pyRound ts.2, pyRound ts.1)
      | none, some f =>
        match np_array.shape with
        | height :: width :: _ =>
          .ok (pyRound (f * (width : ℚ)), pyRound (f * (height : ℚ)))
        | _ => .error .valueError
      | none, none => .error .invalidArgument
    match sizes with
    | .error e => .error e
    | .ok (target_width, target_height) =>
      if interp = "bicubic" then
        cv2_resize resampled np_array target_width target_height
      else if interp = "bilinear" then
        cv2_resize resampled np_array target_width target_height
      else .error .invalidArgument

/-- The filter object of image_operator.py lines 9-18: the constructor
stores `filter_size`, the two flags and `weights = None`. -/
structure linear_filter where
  filter_size : Option (ℚ × ℚ)
  warning : Bool
  debug : Bool
  weights : Option (List (List ℚ))
deriving DecidableEq, Repr

/-- `linear_filter.__init__` (image_operator.py lines 10-18).  Line 14 reads
`if debug: isimsize(filter_size), 'the filter size is not correct'` — the
`assert` keyword is missing, so the line is a bare tuple expression whose
boolean result is discarded (`isimsize` itself, modelled from spec §6, is a
pure predicate and raises nothing).  Construction therefore always
succeeds, whatever `filter_size` is. -/
def linear_filter_init (filter_size : Option (ℚ × ℚ))
    (warning debug : Bool) : Except PyError linear_filter :=
  .ok ⟨filter_size, warning, debug, none⟩

/-- `linear_filter.gaussian_filter` (image_operator.py lines 20-25).  Its
first statement is `if debug: ...` where `debug` is a bare name — not
`self.debug`, not a parameter, not a module global — so Python raises
`NameError` on entry, for every object and before `filter_size` (also a
bare name) is ever reached; the `pass` body is never executed. -/
def gaussian_filter (self : linear_filter) : Except PyError (List (List ℚ)) :=
  .error .nameError

/-- `linear_filter.sobel_filter` (image_operator.py lines 27-37): under
`self.debug` an axis outside {'x', 'y'} fails the assert; otherwise the
fixed 3×3 kernel is built, stored in `self.weights` and returned.  With
`self.debug = False` and a bad axis, `self.weights = sobel` reads the
never-assigned local `sobel` and raises `UnboundLocalError`. -/
def sobel_filter (self : linear_filter) (axis : String) :
    Except PyError (List (List ℚ) × linear_filter) :=
  if self.debug ∧ ¬(axis = "x" ∨ axis = "y") then .error .invalidArgument
  else if axis = "x" then
    let sobel : List (List ℚ) := [[-1, 0, 1], [-2, 0, 2], [-1, 0, 1]]
    .ok (sobel, ⟨self.filter_size, self.warning, self.debug, some sobel⟩)
  else if axis = "y" then
    let sobel : List (List ℚ) := [[-1, -2, 1], [0, 0, 0], [1, 2, 1]]
    .ok (sobel, ⟨self.filter_size, self.warning, self.debug, some sobel⟩)
  else .error .unboundLocal

/-- C2: for every rank-3 array `A`, `nparray_chw2hwc (nparray_hwc2chw A)`
and `nparray_hwc2chw (nparray_chw2hwc A)` both return `A` itself (shape and
every element), i.e. the two channel-order conversions are mutually inverse
round-trips. -/
theorem nparray_hwc2chw_chw2hwc_round_trip (A : NpArr3) :
    nparray_chw2hwc (nparray_hwc2chw A) = A ∧
    nparray_hwc2chw (nparray_chw2hwc A) = A :=
  ⟨rfl, rfl⟩

theorem foldl_max_mem (t : List ℚ) (a : ℚ) :
    t.foldl max a = a ∨ t.foldl max a ∈ t := by
  induction t generalizing a with
  | nil => exact Or.inl rfl
  | cons b t ih =>
    simp only [List.foldl_cons]
    rcases ih (max a b) with h | h
    · rcases max_choice a b with hc | hc
      · left; rw [h, hc]
      · right; rw [h, hc]; exact List.mem_cons_self b t
    · exact Or.inr (List.mem_cons_of_mem b h)

theorem le_foldl_max (t : List ℚ) (a : ℚ) : a ≤ t.foldl max a := by
  induction t generalizing a with
  | nil => exact le_refl a
  | cons b t ih =>
    simp only [List.foldl_cons]
    exact le_trans (le_max_left a b) (ih (max a b))

theorem mem_le_foldl_max {t : List ℚ} {x : ℚ} (a : ℚ) (h : x ∈ t) :
    x ≤ t.foldl max a := by
  induction t generalizing a with
  | nil => cases h
  | cons b t ih =>
    simp only [List.foldl_cons]
    rcases List.mem_cons.mp h with rfl | h
    · exact le_trans (le_max_right a x) (le_foldl_max t (max a x))
    · exact ih _ h

theorem list_amax_mem {l : List ℚ} {m : ℚ} (h : list_amax l = some m) :
    m ∈ l := by
  cases l with
  | nil => cases h
  | cons a t =>
    simp only [list_amax, Option.some.injEq] at h
    subst h
    rcases foldl_max_mem t a with h | h
    · rw [h]; exact List.mem_cons_self a t
    · exact List.mem_cons_of_mem a h

theorem le_list_amax {l : List ℚ} {x m : ℚ} (hx : x ∈ l)
    (h : list_amax l = some m) : x ≤ m := by
  cases l with
  | nil => cases hx
  | cons a t =>
    simp only [list_amax, Option.some.injEq] at h
    subst h
    rcases List.mem_cons.mp hx with rfl | hx
    · exact le_foldl_max t x
    · exact mem_le_foldl_max a hx

theorem list_amax_of_ne_nil {l : List ℚ} (h : l ≠ []) :
    ∃ m, list_amax l = some m := by
  cases l with
  | nil => exact absurd rfl h
  | cons a t => exact ⟨t.foldl max a, rfl⟩

theorem list_map_congr {α β : Type} {l : List α} {f g : α → β}
    (h : ∀ a ∈ l, f a = g a) : l.map f = l.map g := by
  induction l with
  | nil => rfl
  | cons a t ih =>
    simp only [List.map_cons]
    rw [h a (List.mem_cons_self a t), ih (fun b hb => h b (List.mem_cons_of_mem a hb))]

theorem ite_neg_eq_max (q : ℚ) : (if q < 0 then 0 else q) = max 0 q := by
  by_cases h : q < 0
  · rw [if_pos h, max_eq_left h.le]
  · rw [if_neg h, max_eq_right (not_lt.mp h)]

theorem heatmap_clipped_mem_unit (expf : ℚ → ℚ) (pts_array : PtsArray)
    (std : ℚ) (y x j : ℕ) :
    0 ≤ heatmap_clipped expf pts_array std y x j ∧
      heatmap_clipped expf pts_array std y x j ≤ 1 := by
  simp only [heatmap_clipped]
  set v := heatmap_raw expf pts_array std y x j with hv
  by_cases h1 : v < 1 / 100
  · rw [if_pos h1]; norm_num
  · rw [if_neg h1]
    by_cases h2 : v > 1
    · rw [if_pos h2]; norm_num
    · rw [if_neg h2]
      have h1' := not_lt.mp h1
      have h2' := not_lt.mp h2
      constructor
      · linarith
      · exact h2'

theorem mask_valid_arr_eq_zero_or_one (pts_array : PtsArray) (j : ℕ) :
    mask_valid_arr pts_array j = 0 ∨ mask_valid_arr pts_array j = 1 := by
  unfold mask_valid_arr
  split
  · split
    · right; rfl
    · left; rfl
  · right; rfl

theorem masked_heatmap_chan_mem_unit (expf : ℚ → ℚ) (pts_array : PtsArray)
    (std : ℚ) (y x j : ℕ) :
    0 ≤ masked_heatmap_chan expf pts_array std y x j ∧
      masked_heatmap_chan expf pts_array std y x j ≤ 1 := by
  unfold masked_heatmap_chan
  rcases mask_valid_arr_eq_zero_or_one pts_array j with h | h <;> rw [h]
  · rw [mul_zero]; norm_num
  · rw [mul_one]; exact heatmap_clipped_mem_unit expf pts_array std y x j

theorem background_label_mem_unit (expf : ℚ → ℚ) (pts_array : PtsArray)
    (std : ℚ) (y x : ℕ) (hN : pts_array.N ≠ 0) :
    0 ≤ background_label expf pts_array std y x ∧
      background_label expf pts_array std y x ≤ 1 := by
  simp only [background_label]
  have hne : (List.range pts_array.N).map
      (fun j => masked_heatmap_chan expf pts_array std y x j) ≠ [] := by
    simp [List.map_eq_nil_iff, List.range_eq_nil, hN]
  obtain ⟨m, hm⟩ := list_amax_of_ne_nil hne
  rw [hm, Option.getD_some]
  obtain ⟨j, hj, hjm⟩ := List.mem_map.mp (list_amax_mem hm)
  have hb := masked_heatmap_chan_mem_unit expf pts_array std y x j
  rw [hjm] at hb
  by_cases h : 1 - m < 0
  · rw [if_pos h]; norm_num
  · rw [if_neg h]
    constructor
    · exact not_lt.mp h
    · linarith [hb.1]

theorem masked_heatmap_data_lt (expf : ℚ → ℚ) (pts_array : PtsArray)
    (std : ℚ) (H W y x j : ℕ) (hj : j < pts_array.N) :
    (masked_heatmap expf pts_array std H W).data y x j =
      masked_heatmap_chan expf pts_array std y x j := by
  show (if j < pts_array.N then _ else _) = _
  rw [if_pos hj]

theorem masked_heatmap_data_bg (expf : ℚ → ℚ) (pts_array : PtsArray)
    (std : ℚ) (H W y x : ℕ) :
    (masked_heatmap expf pts_array std H W).data y x pts_array.N =
      background_label expf pts_array std y x := by
  show (if pts_array.N < pts_array.N then _ else _) = _
  rw [if_neg (lt_irrefl pts_array.N), if_pos rfl]

theorem masked_heatmap_background_eq (expf : ℚ → ℚ) (pts_array : PtsArray)
    (std : ℚ) (H W y x : ℕ) :
    (masked_heatmap expf pts_array std H W).data y x pts_array.N =
      max 0 (1 - channel_max (masked_heatmap expf pts_array std H W) y x pts_array.N) := by
  have hdata : ∀ j ∈ List.range pts_array.N,
      (masked_heatmap expf pts_array std H W).data y x j =
        masked_heatmap_chan expf pts_array std y x j := by
    intro j hj
    simp only [masked_heatmap]
    rw [if_pos (List.mem_range.mp hj)]
  unfold channel_max
  rw [list_map_congr hdata, masked_heatmap_data_bg]
  unfold background_label
  exact ite_neg_eq_max _

/-- C1: the spec promises that an empty point set (N = 0) yields an
all-ones heatmap of shape (H, W, 1), but for `num_pts = 0` line 84's
`np.amax(masked_heatmap, axis=2)` reduces a zero-size axis and numpy raises
`ValueError`, so the call never returns. -/
theorem generate_gaussian_heatmap_empty_raises (expf : ℚ → ℚ)
    (pts_array : PtsArray) (H W : ℕ) (std : ℚ) (hN : pts_array.N = 0)
    (hH : 0 < H) (hW : 0 < W) (hstd : 0 < std) :
    generate_gaussian_heatmap expf pts_array (H, W) std = .error .valueError := by
  simp [generate_gaussian_heatmap, hN]

theorem generate_gaussian_heatmap_empty_raises_witness :
    0 < 2 ∧ 0 < (1 : ℚ) ∧
      generate_gaussian_heatmap (fun _ => 1) ⟨0, fun _ _ => 0⟩ (2, 2) 1 =
        .error .valueError :=
  ⟨by decide, by norm_num,
   generate_gaussian_heatmap_empty_raises (fun _ => 1) ⟨0, fun _ _ => 0⟩ 2 2 1
     rfl (by decide) (by decide) (by norm_num)⟩

/-- C3: for every point set with N ≥ 1 points satisfying the §3 state
invariant, positive image size (H, W) and positive std (and any pointwise
exponential), `generate_gaussian_heatmap` returns a heatmap of shape
(H, W, N+1) whose elements all lie in [0, 1] and whose last channel equals,
at every pixel, `max 0 (1 - max over the N point channels)`. -/
theorem generate_gaussian_heatmap_spec (expf : ℚ → ℚ) (pts_array : PtsArray)
    (H W : ℕ) (std : ℚ) (hN : 1 ≤ pts_array.N) (hH : 0 < H) (hW : 0 < W)
    (hstd : 0 < std) (hok : pts_states_ok pts_array) :
    ∃ hm mv mvis,
      generate_gaussian_heatmap expf pts_array (H, W) std = .ok (hm, mv, mvis) ∧
      hm.shape = [H, W, pts_array.N + 1] ∧
      (∀ y < H, ∀ x < W, ∀ c < pts_array.N + 1,
        0 ≤ hm.data y x c ∧ hm.data y x c ≤ 1) ∧
      (∀ y < H, ∀ x < W,
        hm.data y x pts_array.N =
          max 0 (1 - channel_max hm y x pts_array.N)) := by
  have hN0 : pts_array.N ≠ 0 := by omega
  refine ⟨masked_heatmap expf pts_array std H W,
    ⟨[1, 1, pts_array.N + 1], fun _ _ j => mask_valid_arr pts_array j⟩,
    ⟨[1, 1, pts_array.N + 1], fun _ _ j => mask_visible_arr pts_array j⟩,
    ?_, rfl, ?_, ?_⟩
  · simp [generate_gaussian_heatmap, hN0]
  · intro y _ x _ c hc
    by_cases hcN : c < pts_array.N
    · rw [masked_heatmap_data_lt expf pts_array std H W y x c hcN]
      exact masked_heatmap_chan_mem_unit expf pts_array std y x c
    · have hcc : c = pts_array.N := by omega
      subst hcc
      rw [masked_heatmap_data_bg]
      exact background_label_mem_unit expf pts_array std y x hN0
  · intro y _ x _
    exact masked_heatmap_background_eq expf pts_array std H W y x

theorem generate_gaussian_heatmap_spec_witness :
    ∃ hm mv mvis,
      generate_gaussian_heatmap (fun _ => 1 / 2)
          ⟨1, fun r _ => if r = 2 then 1 else 0⟩ (2, 3) 1 = .ok (hm, mv, mvis) ∧
      hm.shape = [2, 3, 1 + 1] ∧
      (∀ y < 2, ∀ x < 3, ∀ c < 1 + 1, 0 ≤ hm.data y x c ∧ hm.data y x c ≤ 1) ∧
      (∀ y < 2, ∀ x < 3, hm.data y x 1 = max 0 (1 - channel_max hm y x 1)) :=
  generate_gaussian_heatmap_spec (fun _ => 1 / 2)
    ⟨1, fun r _ => if r = 2 then 1 else 0⟩ 2 3 1
    (by decide) (by decide) (by decide) (by norm_num) (by decide)

/-- C4: for a point `p` whose occlusion state is -1 (in a point set
satisfying the §3 invariant, with positive image size and std), the
returned heatmap channel `p` is identically zero whatever the point's
coordinates, both masks are 0 at slot `p`, and both masks are 1 at the
background slot N. -/
theorem generate_gaussian_heatmap_masked_point (expf : ℚ → ℚ)
    (pts_array : PtsArray) (H W : ℕ) (std : ℚ) (p : ℕ)
    (hok : pts_states_ok pts_array) (hH : 0 < H) (hW : 0 < W) (hstd : 0 < std)
    (hp : p < pts_array.N) (hstate : pts_array.data 2 p = -1) :
    ∃ hm mv mvis,
      generate_gaussian_heatmap expf pts_array (H, W) std = .ok (hm, mv, mvis) ∧
      (∀ y x, hm.data y x p = 0) ∧
      mv.data 0 0 p = 0 ∧ mvis.data 0 0 p = 0 ∧
      mv.data 0 0 pts_array.N = 1 ∧ mvis.data 0 0 pts_array.N = 1 := by
  have hN0 : pts_array.N ≠ 0 := by omega
  have hvalid : pt_valid pts_array p = false := by
    rw [pt_valid, hstate]; decide
  have hvisible : pt_visible pts_array p = false := by
    rw [pt_visible, hstate]; decide
  have hmv : mask_valid_arr pts_array p = 0 := by
    rw [mask_valid_arr, if_pos hp, hvalid]; rfl
  have hmvis : mask_visible_arr pts_array p = 0 := by
    rw [mask_visible_arr, if_pos hp, hvisible]; rfl
  refine ⟨masked_heatmap expf pts_array std H W,
    ⟨[1, 1, pts_array.N + 1], fun _ _ j => mask_valid_arr pts_array j⟩,
    ⟨[1, 1, pts_array.N + 1], fun _ _ j => mask_visible_arr pts_array j⟩,
    ?_, ?_, ?_, ?_, ?_, ?_⟩
  · simp [generate_gaussian_heatmap, hN0]
  · intro y x
    rw [masked_heatmap_data_lt expf pts_array std H W y x p hp]
    unfold masked_heatmap_chan
    rw [hmv, mul_zero]
  · exact hmv
  · exact hmvis
  · show mask_valid_arr pts_array pts_array.N = 1
    rw [mask_valid_arr, if_neg (lt_irrefl pts_array.N)]
  · show mask_visible_arr pts_array pts_array.N = 1
    rw [mask_visible_arr, if_neg (lt_irrefl pts_array.N)]

theorem generate_gaussian_heatmap_masked_point_witness :
    ∃ hm mv mvis,
      generate_gaussian_heatmap (fun _ => 1 / 2)
          ⟨1, fun r _ => if r = 2 then -1 else 0⟩ (2, 2) 1 = .ok (hm, mv, mvis) ∧
      (∀ y x, hm.data y x 0 = 0) ∧
      mv.data 0 0 0 = 0 ∧ mvis.data 0 0 0 = 0 ∧
      mv.data 0 0 1 = 1 ∧ mvis.data 0 0 1 = 1 :=
  generate_gaussian_heatmap_masked_point (fun _ => 1 / 2)
    ⟨1, fun r _ => if r = 2 then -1 else 0⟩ 2 2 1 0
    (by decide) (by decide) (by decide) (by norm_num) (by decide) (by decide)

/-- C5: with `debug` on (the source default), calling `nparray_resize` with
both `resize_factor` and `target_size` set, or with neither, raises
InvalidArgument: the mutual-exclusion assert on line 112 fails (and when
the interpolation name is also invalid, the line-111 assert fails first
with the same error kind). -/
theorem nparray_resize_mutual_exclusion (resampled : ℕ → ℕ → ℕ → ℚ)
    (a : NpArrN) (resize_factor : Option ℚ) (target_size : Option (ℚ × ℚ))
    (interp : String)
    (h : (resize_factor.isSome ∧ target_size.isSome)
        ∨ (resize_factor = none ∧ target_size = none)) :
    nparray_resize resampled a resize_factor target_size interp true =
      .error .invalidArgument := by
  by_cases hi : interp = "bicubic" ∨ interp = "bilinear"
  · rcases h with ⟨h1, h2⟩ | ⟨h1, h2⟩
    · obtain ⟨f, rfl⟩ := Option.isSome_iff_exists.mp h1
      obtain ⟨t, rfl⟩ := Option.isSome_iff_exists.mp h2
      simp [nparray_resize, hi]
    · subst h1; subst h2
      simp [nparray_resize, hi]
  · simp [nparray_resize, hi]

theorem nparray_resize_mutual_exclusion_witness :
    ((some (1 / 2 : ℚ)).isSome ∧ (some ((1 : ℚ), (1 : ℚ))).isSome) ∧
    nparray_resize (fun _ _ _ => 0) ⟨[2, 2], fun _ _ _ => 0⟩
        (some (1 / 2)) (some (1, 1)) "bicubic" true = .error .invalidArgument :=
  ⟨⟨rfl, rfl⟩,
   nparray_resize_mutual_exclusion (fun _ _ _ => 0) ⟨[2, 2], fun _ _ _ => 0⟩
     (some (1 / 2)) (some (1, 1)) "bicubic" (Or.inl ⟨rfl, rfl⟩)⟩

/-- C6: with a target size and a valid interpolation, `nparray_resize`
computes target width `round(target_size[1])` and target height
`round(target_size[0])` (no swap) and returns an array of shape
`(round target_size[0], round target_size[1])` for rank-2 input and the
same with the channel count appended for rank-3 input. -/
theorem nparray_resize_target_size_spec (resampled : ℕ → ℕ → ℕ → ℚ)
    (a : NpArrN) (ts : ℚ × ℚ) (interp : String) (debug : Bool)
    (h w : ℕ) (tail : List ℕ) (hshape : a.shape = h :: w :: tail)
    (htail : tail = [] ∨ ∃ c, tail = [c]) (hsz : isimsize ts = true)
    (hi : interp = "bicubic" ∨ interp = "bilinear")
    (hth : 0 < pyRound ts.1) (htw : 0 < pyRound ts.2) :
    nparray_resize resampled a none (some ts) interp debug =
      .ok ⟨(pyRound ts.1).toNat :: (pyRound ts.2).toNat :: tail, resampled⟩ := by
  rcases htail with rfl | ⟨c, rfl⟩ <;> rcases hi with rfl | rfl <;>
    simp [nparray_resize, safe_npdata, cv2_resize, hshape, hsz,
      not_le.mpr htw, not_le.mpr hth]

theorem nparray_resize_target_size_spec_witness :
    nparray_resize (fun _ _ _ => 0) ⟨[5, 6, 3], fun _ _ _ => 0⟩
        none (some (sevenHalves, 2)) "bilinear" true =
      .ok ⟨[4, 2, 3], fun _ _ _ => 0⟩ := by
  have h := nparray_resize_target_size_spec (fun _ _ _ => 0)
    ⟨[5, 6, 3], fun _ _ _ => 0⟩ (sevenHalves, 2) "bilinear" true 5 6 [3] rfl
    (Or.inr ⟨3, rfl⟩) (by decide) (Or.inr rfl) (by decide) (by decide)
  have e1 : (pyRound (sevenHalves, (2 : ℚ)).1).toNat = 4 := by decide
  have e2 : (pyRound (sevenHalves, (2 : ℚ)).2).toNat = 2 := by decide
  rw [e1, e2] at h
  exact h

/-- C10: with `debug = False`, both `resize_factor` and `target_size` set
and a valid interpolation, no assert runs: the `if target_size is not None`
branch wins (the factor is ignored) and the array is resized to the target
size. -/
theorem nparray_resize_debug_off_both_given (resampled : ℕ → ℕ → ℕ → ℚ)
    (a : NpArrN) (f : ℚ) (ts : ℚ × ℚ) (interp : String)
    (h w : ℕ) (tail : List ℕ) (hshape : a.shape = h :: w :: tail)
    (htail : tail = [] ∨ ∃ c, tail = [c])
    (hi : interp = "bicubic" ∨ interp = "bilinear")
    (hth : 0 < pyRound ts.1) (htw : 0 < pyRound ts.2) :
    nparray_resize resampled a (some f) (some ts) interp false =
      .ok ⟨(pyRound ts.1).toNat :: (pyRound ts.2).toNat :: tail, resampled⟩ := by
  rcases htail with rfl | ⟨c, rfl⟩ <;> rcases hi with rfl | rfl <;>
    simp [nparray_resize, safe_npdata, cv2_resize, hshape,
      not_le.mpr htw, not_le.mpr hth]

theorem nparray_resize_debug_off_both_given_witness :
    nparray_resize (fun _ _ _ => 0) ⟨[600, 800], fun _ _ _ => 0⟩
        (some (1 / 4)) (some (3, 4)) "bicubic" false =
      .ok ⟨[3, 4], fun _ _ _ => 0⟩ := by
  have h := nparray_resize_debug_off_both_given (fun _ _ _ => 0)
    ⟨[600, 800], fun _ _ _ => 0⟩ (1 / 4) (3, 4) "bicubic" 600 800 [] rfl
    (Or.inl rfl) (Or.inl rfl) (by decide) (by decide)
  have e1 : (pyRound ((3 : ℚ), (4 : ℚ)).1).toNat = 3 := by decide
  have e2 : (pyRound ((3 : ℚ), (4 : ℚ)).2).toNat = 4 := by decide
  rw [e1, e2] at h
  exact h

/-- C7: on a filter object with `debug` on (the source default),
`sobel_filter` returns exactly the fixed x / y kernels of lines 33-34
(storing them in `weights`), and any axis outside {'x', 'y'} fails the
line-31 assert with InvalidArgument. -/
theorem sobel_filter_spec (self : linear_filter) (hdebug : self.debug = true) :
    sobel_filter self "x" = .ok ([[-1, 0, 1], [-2, 0, 2], [-1, 0, 1]],
      ⟨self.filter_size, self.warning, self.debug,
       some [[-1, 0, 1], [-2, 0, 2], [-1, 0, 1]]⟩) ∧
    sobel_filter self "y" = .ok ([[-1, -2, 1], [0, 0, 0], [1, 2, 1]],
      ⟨self.filter_size, self.warning, self.debug,
       some [[-1, -2, 1], [0, 0, 0], [1, 2, 1]]⟩) ∧
    ∀ axis : String, axis ≠ "x" → axis ≠ "y" →
      sobel_filter self axis = .error .invalidArgument := by
  refine ⟨?_, ?_, ?_⟩
  · simp [sobel_filter]
  · simp [sobel_filter]
  · intro axis hx hy
    unfold sobel_filter
    rw [if_pos ⟨hdebug, fun hc => hc.elim hx hy⟩]

theorem sobel_filter_spec_witness :
    sobel_filter ⟨none, true, true, none⟩ "x" =
      .ok ([[-1, 0, 1], [-2, 0, 2], [-1, 0, 1]],
        ⟨none, true, true, some [[-1, 0, 1], [-2, 0, 2], [-1, 0, 1]]⟩) ∧
    sobel_filter ⟨none, true, true, none⟩ "z" = .error .invalidArgument := by
  have h := sobel_filter_spec ⟨none, true, true, none⟩ rfl
  exact ⟨h.1, h.2.2 "z" (by decide) (by decide)⟩

/-- C8 counterexample: on a default-style filter object, `gaussian_filter`
does not raise the spec's NotImplemented — it raises `NameError`, because
its first statement `if debug:` reads the unbound bare name `debug`. -/
theorem gaussian_filter_counterexample :
    ¬(gaussian_filter ⟨some (3, 3), true, true, none⟩ =
        .error .notImplemented) := by
  simp [gaussian_filter]

/-- C8 amended: for every constructed filter object, `gaussian_filter`
raises an error in all cases — a `NameError` from the unbound name `debug`,
rather than NotImplemented — and never returns a kernel value. -/
theorem gaussian_filter_always_raises (self : linear_filter) :
    gaussian_filter self = .error .nameError ∧
    ∀ k, gaussian_filter self ≠ .ok k :=
  ⟨rfl, fun k h => by simp [gaussian_filter] at h⟩

/-- C9: the constructor never raises: line 14 of image_operator.py lacks
the `assert` keyword, so its validation is a discarded tuple expression and
`linear_filter(filter_size=None)` (or any malformed size) constructs
successfully, contradicting the spec's required configuration error. -/
theorem linear_filter_init_never_raises (filter_size : Option (ℚ × ℚ))
    (warning debug : Bool) :
    linear_filter_init filter_size warning debug =
      .ok ⟨filter_size, warning, debug, none⟩ :=
  rfl
